import Mathlib

/-!
Verification of the OAuth SPA client (oauth-spa-js).

This file gives a shallow embedding of the multi-resource OAuth client
(src/unnamed/part_008, mirrored by src/src/lib/client/index.ts) together with
the PKCE challenge helpers (src/unnamed/part_004), and proves properties of the
embedded operations.

Modelling conventions:
- localStorage is a string-keyed store, embedded as a function
  String to Option String.  JavaScript truthiness on values read from storage
  (null and the empty string are falsy) is embedded by truthyS.
- Date.now() is an explicit Int parameter named now (epoch milliseconds).
- Network responses are inputs: each operation that performs a fetch takes the
  response the endpoint would produce.  Issued requests are recorded in a
  netlog so that request-counting properties can be stated.
- Subscriber callbacks are identified by natural-number handles; every
  invocation of a callback is recorded, in order, in an events list holding
  the handle and the access-token value the callback received.
- The async methods are embedded by running the cooperative (event-loop)
  schedule they exhibit in the browser; where an interleaving matters
  (logout's fire-and-forget per-resource closures, the two overlapping
  getUserInfo calls) the definition follows the microtask order of the source
  and says so in its doc comment.
-/

namespace OAuthSpa

/-- Model of window.localStorage: a string-keyed map to string values. -/
def Store := String → Option String

/-- Model of localStorage.getItem. -/
def Store.get (s : Store) (k : String) : Option String := s k

/-- Model of localStorage.setItem. -/
def Store.set (s : Store) (k v : String) : Store :=
  fun k' => if k' = k then some v else s k'

/-- Model of localStorage.removeItem. -/
def Store.remove (s : Store) (k : String) : Store :=
  fun k' => if k' = k then none else s k'

/-- Model of the empty localStorage. -/
def Store.empty : Store := fun _ => none

/-- Model of JavaScript truthiness on a value read from storage or on a
string-or-null result: null and the empty string are falsy. -/
def truthyS : Option String → Bool
  | none => false
  | some s => s != ""

/-- Accumulate decimal digits left to right; none as soon as a non-digit
character appears. -/
def natOfDigitsAux : Nat → List Char → Option Nat
  | acc, [] => some acc
  | acc, ch :: rest =>
      if ch.isDigit then natOfDigitsAux (acc * 10 + (ch.toNat - 48)) rest
      else none

/-- Model of the JavaScript coercion Number(x) on a string: the empty string
coerces to 0, an optional minus sign followed by decimal digits to the
corresponding integer, and any other string to NaN (none).  The expiration
times this client stores are always toString of an integer, so this covers
every reachable stored value. -/
def jsNumber? (s : String) : Option Int :=
  match s.data with
  | [] => some 0
  | '-' :: rest =>
      if rest.isEmpty then none
      else (natOfDigitsAux 0 rest).map (fun n => -(n : Int))
  | l => (natOfDigitsAux 0 l).map (fun n => (n : Int))

/-- Model of the JavaScript coercion Number(x) applied to a getItem result, as
used by tokenIsExpired: Number(null) is 0. -/
def jsNumberOfItem : Option String → Option Int
  | none => some 0
  | some s => jsNumber? s

/-- Model of the OAuthResource descriptor type from the source. -/
structure OAuthResource where
  is_user_information_resource : Bool := false
  identifier : String
  scopes : List String
  deriving DecidableEq, Repr

/-- Model of the immutable part of the OAuthClient class: the constructor
arguments (CreateOAuthClientOptions), with the optional endpoints defaulted to
null as the constructor does. -/
structure OAuthClient where
  client_id : String
  resources : List OAuthResource
  authorization_endpoint : String
  token_endpoint : String
  introspect_endpoint : Option String := none
  revoke_endpoint : Option String := none
  logout_endpoint : Option String := none
  user_info_endpoint : Option String := none
  deriving DecidableEq, Repr

/-- Model of the REFRESH_TOKEN_KEY field computed in the constructor. -/
def OAuthClient.REFRESH_TOKEN_KEY (c : OAuthClient) : String :=
  c.client_id ++ ".OAuthRefreshToken"

/-- Model of the CODE_VERIFIER_KEY field computed in the constructor. -/
def OAuthClient.CODE_VERIFIER_KEY (c : OAuthClient) : String :=
  c.client_id ++ ".OAuthCodeVerifier"

/-- Model of OAuthClient.getAccessTokenKey. -/
def OAuthClient.getAccessTokenKey (c : OAuthClient) (resource_identifier : String) : String :=
  c.client_id ++ "." ++ resource_identifier ++ ".OAuthAccessToken"

/-- Model of OAuthClient.getExpirationTimeKey. -/
def OAuthClient.getExpirationTimeKey (c : OAuthClient) (resource_identifier : String) : String :=
  c.client_id ++ "." ++ resource_identifier ++ ".OAuthExpirationTime"

/-- Model of one entry of the state_changed_callbacks set: the resource key it
was registered under and the handle standing for the callback function. -/
structure Subscriber where
  id : Nat
  key : String
  deriving DecidableEq, Repr

/-- Tag recording one issued network request. -/
inductive NetCall where
  /-- POST to the token endpoint on behalf of the named resource. -/
  | token : String → NetCall
  /-- GET to the user-info endpoint. -/
  | userinfo : NetCall
  /-- POST to the revoke endpoint. -/
  | revoke : NetCall
  deriving DecidableEq, Repr

/-- Model of the mutable state surrounding one OAuthClient instance:
localStorage, the private user_info and fetching_user_info fields, the
subscriber set, plus the observation logs (callback invocations and issued
network requests) and a counter supplying fresh subscriber handles. -/
structure ClientState where
  store : Store
  user_info : Option String := none
  fetching_user_info : Bool := false
  subscribers : List Subscriber := []
  events : List (Nat × Option String) := []
  netlog : List NetCall := []
  next_id : Nat := 0

/-- Record one issued network request. -/
def logNet (st : ClientState) (n : NetCall) : ClientState :=
  { st with netlog := st.netlog ++ [n] }

/- PKCE challenge helpers (src/unnamed/part_004). -/

/-- Alphabet used by btoa. -/
def base64Chars : List Char :=
  "ABCDEFGHIJKLMNOPQRSTUVWXYZabcdefghijklmnopqrstuvwxyz0123456789+/".toList

/-- Character of the btoa alphabet at a 6-bit index. -/
def base64Char (n : Nat) : Char := base64Chars.getD n 'A'

/-- Model of btoa applied to a byte sequence: standard base64 with '='
padding, three input bytes per four output characters. -/
def btoa : List Nat → List Char
  | [] => []
  | [b0] =>
      [base64Char (b0 / 4), base64Char (b0 % 4 * 16), '=', '=']
  | [b0, b1] =>
      [base64Char (b0 / 4), base64Char (b0 % 4 * 16 + b1 / 16),
       base64Char (b1 % 16 * 4), '=']
  | b0 :: b1 :: b2 :: rest =>
      base64Char (b0 / 4) :: base64Char (b0 % 4 * 16 + b1 / 16) ::
      base64Char (b1 % 16 * 4 + b2 / 64) :: base64Char (b2 % 64) ::
      btoa rest

/-- Model of base64URLEncode: base64 with '+' replaced by '-', '/' replaced by
'_', and '=' removed. -/
def base64URLEncode (bytes : List Nat) : String :=
  String.mk (((btoa bytes).map
    (fun ch => if ch = '+' then '-' else if ch = '/' then '_' else ch)).filter
    (fun ch => ch ≠ '='))

/-- Model of generateCodeChallenge: base64url-encodes the SHA-256 digest of
the UTF-8 bytes of the verifier.  The digest itself is computed by the browser
capability crypto.subtle.digest, passed here as the sha256 argument. -/
def generateCodeChallenge (sha256 : String → List Nat) (codeVerifier : String) : String :=
  base64URLEncode (sha256 codeVerifier)

/- Errors and network responses. -/

/-- The distinct throw sites of the client, one constructor per distinct
Error the source constructs (the source throws plain Error values carrying
messages; the spec names them as an error taxonomy). -/
inductive OAuthError where
  /-- Destructuring an undefined resource (empty resources list) throws a
  TypeError. -/
  | typeError
  /-- No code was found from the callback url. -/
  | missingCode
  /-- No code verifier was stored in local storage. -/
  | missingVerifier
  /-- There exists no scope for the given key. -/
  | unknownResource (resource_identifier : String)
  /-- No refresh token was stored in local storage. -/
  | missingRefreshToken
  /-- Non-200 response from the token endpoint, with the provider's error and
  error_description fields. -/
  | tokenExchange (status : Int) (error error_description : String)
  /-- A field does not exist (with the right type) within the returned data. -/
  | malformedField (field : String)
  /-- No scope was found for fetching user information. -/
  | noUserInfoResource
  /-- The user information endpoint has not been specified. -/
  | noUserInfoEndpoint
  /-- Non-200 response from the user-info endpoint. -/
  | userInfoFetch (status : Int)
  deriving DecidableEq, Repr

/-- JSON value of a token-endpoint response field, as far as the source
inspects it with typeof. -/
inductive JsonV where
  | str : String → JsonV
  | num : Int → JsonV
  deriving DecidableEq, Repr

/-- String content of a JSON field when it passes the typeof string check. -/
def jstr : Option JsonV → Option String
  | some (.str s) => some s
  | _ => none

/-- Numeric content of a JSON field when it passes the typeof number check. -/
def jnum : Option JsonV → Option Int
  | some (.num n) => some n
  | _ => none

/-- Model of a token-endpoint HTTP response: status plus the JSON body fields
the source reads. -/
structure TokenResponse where
  status : Int
  error : String := ""
  error_description : String := ""
  access_token : Option JsonV := none
  refresh_token : Option JsonV := none
  expires_in : Option JsonV := none
  deriving DecidableEq, Repr

/-- Model of a user-info-endpoint HTTP response: status plus the parsed JSON
body (none models a null body; the empty string models any other falsy body). -/
structure UserInfoResponse where
  status : Int
  data : Option String := none
  deriving DecidableEq, Repr

/- State handling methods of OAuthClient. -/

/-- Model of the private notifyStateChanged: re-reads the resource's access
token from storage and invokes every callback registered under that resource
identifier with the re-read value. -/
def notifyStateChanged (c : OAuthClient) (resource_identifier : String)
    (st : ClientState) : ClientState :=
  let access_token := st.store.get (c.getAccessTokenKey resource_identifier)
  let fired := (st.subscribers.filter (fun sb => sb.key == resource_identifier)).map
    (fun sb => (sb.id, access_token))
  { st with events := st.events ++ fired }

/-- Model of the private setAccessToken: computes the absolute expiry
Date.now() + expires_in * 1000, writes the token and the expiry under the
resource's keys (each write guarded by JavaScript truthiness of the written
value), invalidates the user-info cache and notifies. -/
def setAccessToken (c : OAuthClient) (resource_identifier : String)
    (access_token : String) (expires_in : Int) (now : Int)
    (st : ClientState) : ClientState :=
  let expiration_time_ms := now + expires_in * 1000
  let store :=
    if access_token != "" then
      st.store.set (c.getAccessTokenKey resource_identifier) access_token
    else st.store
  let store :=
    if expiration_time_ms != 0 then
      store.set (c.getExpirationTimeKey resource_identifier)
        (toString expiration_time_ms)
    else store
  notifyStateChanged c resource_identifier
    { st with store, user_info := none, fetching_user_info := false }

/-- Model of the private clearAccessToken: removes the resource's access
token and expiry, invalidates the user-info cache and notifies. -/
def clearAccessToken (c : OAuthClient) (resource_identifier : String)
    (st : ClientState) : ClientState :=
  let store := (st.store.remove (c.getAccessTokenKey resource_identifier)).remove
    (c.getExpirationTimeKey resource_identifier)
  notifyStateChanged c resource_identifier
    { st with store, user_info := none, fetching_user_info := false }

/-- Model of the private setRefreshToken: the write is guarded by truthiness
of the token. -/
def setRefreshToken (c : OAuthClient) (refresh_token : String)
    (st : ClientState) : ClientState :=
  if refresh_token != "" then
    { st with store := st.store.set c.REFRESH_TOKEN_KEY refresh_token }
  else st

/-- Model of the private clearRefreshToken. -/
def clearRefreshToken (c : OAuthClient) (st : ClientState) : ClientState :=
  { st with store := st.store.remove c.REFRESH_TOKEN_KEY }

/-- Model of the private setCodeVerifier. -/
def setCodeVerifier (c : OAuthClient) (code_verifier : String)
    (st : ClientState) : ClientState :=
  { st with store := st.store.set c.CODE_VERIFIER_KEY code_verifier }

/-- Model of the private clearCodeVerifier. -/
def clearCodeVerifier (c : OAuthClient) (st : ClientState) : ClientState :=
  { st with store := st.store.remove c.CODE_VERIFIER_KEY }

/-- Model of tokenIsExpired: coerces the stored expiration time with Number
(null coerces to 0) and compares strictly with the current time; a NaN
comparison is false. -/
def tokenIsExpired (c : OAuthClient) (resource_identifier : String) (now : Int)
    (st : ClientState) : Bool :=
  match jsNumberOfItem (st.store.get (c.getExpirationTimeKey resource_identifier)) with
  | some expiration_time => decide (now > expiration_time)
  | none => false

/- Flow methods of OAuthClient. -/

/-- Model of refreshAccessToken: resolves the resource, requires a truthy
stored refresh token, then issues the token-endpoint POST (resp is the
response the endpoint produces).  On a non-200 status it clears the
resource's access token (which notifies) and fails; on a 200 body it checks,
in source order, that access_token is a string, refresh_token is a string and
expires_in is a number, failing without any state change otherwise; on
success it stores the new access token and refresh token and returns the
access token. -/
def refreshAccessToken (c : OAuthClient) (resource_identifier : String)
    (now : Int) (resp : TokenResponse) (st : ClientState) :
    Except OAuthError String × ClientState :=
  match c.resources.find? (fun r => r.identifier == resource_identifier) with
  | none => (.error (.unknownResource resource_identifier), st)
  | some _resource =>
    if ¬ truthyS (st.store.get c.REFRESH_TOKEN_KEY) then
      (.error .missingRefreshToken, st)
    else
      let st := logNet st (.token resource_identifier)
      if resp.status ≠ 200 then
        (.error (.tokenExchange resp.status resp.error resp.error_description),
         clearAccessToken c resource_identifier st)
      else
        match jstr resp.access_token with
        | none => (.error (.malformedField "access_token"), st)
        | some access_token =>
          match jstr resp.refresh_token with
          | none => (.error (.malformedField "refresh_token"), st)
          | some refresh_token =>
            match jnum resp.expires_in with
            | none => (.error (.malformedField "expires_in"), st)
            | some expires_in =>
              let st := setAccessToken c resource_identifier access_token
                expires_in now st
              let st := setRefreshToken c refresh_token st
              (.ok access_token, st)

/-- Model of getAccessToken: returns null when the stored value is falsy;
otherwise, when refresh_if_expired is set and the token is expired, awaits
refreshAccessToken (resp is the token endpoint's response should that request
be issued, and a refresh failure propagates) before re-reading and returning
the stored value. -/
def getAccessToken (c : OAuthClient) (resource_identifier : String)
    (refresh_if_expired : Bool) (now : Int) (resp : TokenResponse)
    (st : ClientState) : Except OAuthError (Option String) × ClientState :=
  let key := c.getAccessTokenKey resource_identifier
  if ¬ truthyS (st.store.get key) then (.ok none, st)
  else if refresh_if_expired && tokenIsExpired c resource_identifier now st then
    match refreshAccessToken c resource_identifier now resp st with
    | (.error e, st') => (.error e, st')
    | (.ok _, st') => (.ok (st'.store.get key), st')
  else (.ok (st.store.get key), st)

/-- Model of loginWithRedirect as far as it touches client state: generates
the challenge for the fresh verifier (the verifier argument is the value the
CSPRNG produced, and sha256 is the digest capability) and persists the
challenge under the code-verifier key before navigating away. -/
def loginWithRedirect (c : OAuthClient) (sha256 : String → List Nat)
    (verifier : String) (st : ClientState) : ClientState :=
  let code_challenge := generateCodeChallenge sha256 verifier
  setCodeVerifier c code_challenge st

/-- Model of the private fetchTokensFromAuthorizationCode for one resource:
url_code is the code query parameter of the current location (none when the
parameter is absent).  It reads the stored verifier, clears it
unconditionally, then validates the code and verifier (JavaScript truthiness),
issues the exchange and validates the response, storing the access and
refresh tokens on success. -/
def fetchTokensFromAuthorizationCode (c : OAuthClient) (resource : OAuthResource)
    (url_code : Option String) (now : Int) (resp : TokenResponse)
    (st : ClientState) : Except OAuthError Unit × ClientState :=
  let code := url_code
  let code_verifier := st.store.get c.CODE_VERIFIER_KEY
  let st := clearCodeVerifier c st
  if ¬ truthyS code then (.error .missingCode, st)
  else if ¬ truthyS code_verifier then (.error .missingVerifier, st)
  else
    let st := logNet st (.token resource.identifier)
    if resp.status ≠ 200 then
      (.error (.tokenExchange resp.status resp.error resp.error_description), st)
    else
      match jstr resp.access_token with
      | none => (.error (.malformedField "access_token"), st)
      | some access_token =>
        match jnum resp.expires_in with
        | none => (.error (.malformedField "expires_in"), st)
        | some expires_in =>
          match jstr resp.refresh_token with
          | none => (.error (.malformedField "refresh_token"), st)
          | some refresh_token =>
            let st := setAccessToken c resource.identifier access_token
              expires_in now st
            let st := setRefreshToken c refresh_token st
            (.ok (), st)

/-- Model of handleRedirectCallback: exchanges the code for the first
configured resource (propagating its failure), then refreshes every other
resource fire-and-forget, so the secondary refreshes' failures affect state
but are not propagated.  resps gives the token endpoint's response for each
resource's request.  With an empty resources list the destructuring of the
undefined first resource throws a TypeError before anything else happens. -/
def handleRedirectCallback (c : OAuthClient) (url_code : Option String)
    (now : Int) (resps : String → TokenResponse) (st : ClientState) :
    Except OAuthError Unit × ClientState :=
  match c.resources with
  | [] => (.error .typeError, st)
  | first_resource :: other_resources =>
    match fetchTokensFromAuthorizationCode c first_resource url_code now
      (resps first_resource.identifier) st with
    | (.error e, st') => (.error e, st')
    | (.ok _, st') =>
      let st'' := other_resources.foldl
        (fun s r => (refreshAccessToken c r.identifier now (resps r.identifier) s).2)
        st'
      (.ok (), st'')

/-- Model of logout, in the microtask order the source exhibits: the revoke of
the refresh token is fired (not awaited) and the refresh token cleared; each
resource's async closure then awaits getAccessToken (with its implicit
refresh; resps gives the token endpoint's would-be response per resource),
fires a revoke and clears the resource's token when the await succeeds, and
silently rejects, skipping the clear, when it throws; finally the code
verifier is cleared.  The sync part of each closure performs no writes, so
running the closures to completion in order is state-equivalent to the real
interleaving. -/
def logout (c : OAuthClient) (now : Int) (resps : String → TokenResponse)
    (st : ClientState) : ClientState :=
  let st :=
    if truthyS (st.store.get c.REFRESH_TOKEN_KEY) && c.revoke_endpoint.isSome then
      logNet st .revoke
    else st
  let st := clearRefreshToken c st
  let st := c.resources.foldl
    (fun s r =>
      match getAccessToken c r.identifier true now (resps r.identifier) s with
      | (.error _, s') => s'
      | (.ok access_token, s') =>
        let s'' :=
          if truthyS access_token && c.revoke_endpoint.isSome then
            logNet s' .revoke
          else s'
        clearAccessToken c r.identifier s'')
    st
  clearCodeVerifier c st

/- Subscribe methods of OAuthClient. -/

/-- Model of subscribe: reads the resource's current access token, adds a
fresh callback entry to the set and invokes the callback once with the value
just read.  Returns the fresh handle (the source returns the unsubscribe
closure over the added entry; the handle identifies that entry). -/
def subscribe (c : OAuthClient) (resource_identifier : String)
    (st : ClientState) : Nat × ClientState :=
  let access_token := st.store.get (c.getAccessTokenKey resource_identifier)
  let id := st.next_id
  (id, { st with
          subscribers := st.subscribers ++ [⟨id, resource_identifier⟩],
          events := st.events ++ [(id, access_token)],
          next_id := id + 1 })

/-- Model of the unsubscribe closure returned by subscribe: deletes the
registered entry from the callback set. -/
def unsubscribe (id : Nat) (st : ClientState) : ClientState :=
  { st with subscribers := st.subscribers.filter (fun sb => sb.id ≠ id) }

/- User-info methods of OAuthClient. -/

/-- Model of the private fetchUserInfo: resolves the resource flagged as the
user-information resource (truthiness of its identifier included), requires
the user-info endpoint, resolves the access token through getAccessToken
(which may refresh, with tok_resps the token endpoint's would-be responses),
returns null without a request when the token is falsy, and otherwise issues
the user-info GET and returns the parsed body of a 200 response. -/
def fetchUserInfo (c : OAuthClient) (now : Int)
    (tok_resps : String → TokenResponse) (ui_resp : UserInfoResponse)
    (st : ClientState) : Except OAuthError (Option String) × ClientState :=
  let user_info_resource_identifier :=
    (c.resources.find? (fun r => r.is_user_information_resource)).map
      (fun r => r.identifier)
  if ¬ truthyS user_info_resource_identifier then (.error .noUserInfoResource, st)
  else
    match user_info_resource_identifier, c.user_info_endpoint with
    | _, none => (.error .noUserInfoEndpoint, st)
    | none, _ => (.error .noUserInfoResource, st)
    | some rid, some _ =>
      match getAccessToken c rid true now (tok_resps rid) st with
      | (.error e, st') => (.error e, st')
      | (.ok access_token, st') =>
        if ¬ truthyS access_token then (.ok none, st')
        else
          let st'' := logNet st' .userinfo
          if ui_resp.status ≠ 200 then
            (.error (.userInfoFetch ui_resp.status), st'')
          else (.ok ui_resp.data, st'')

/-- Model of the event-loop interleaving of two getUserInfo() calls that both
start while no fetch is in flight and no value is cached: the first call
starts fetchUserInfo and stores the in-flight promise; the second call sees
the promise and awaits it; when it settles, the first call's continuation
records the result in the user_info cache; the second call then re-reads the
cache and returns it when truthy, re-running fetchUserInfo otherwise.  When
the shared promise rejects, both calls reject and nothing more runs.  When a
truthy value is already cached, both calls return it and nothing runs. -/
def twoConcurrentGetUserInfo (c : OAuthClient) (now : Int)
    (tok_resps : String → TokenResponse) (ui_resp : UserInfoResponse)
    (st : ClientState) : ClientState :=
  if truthyS st.user_info then st else
  match fetchUserInfo c now tok_resps ui_resp st with
  | (.error _, st1) => st1
  | (.ok da, st1) =>
    let st2 := { st1 with user_info := da, fetching_user_info := false }
    if truthyS st2.user_info then st2
    else
      match fetchUserInfo c now tok_resps ui_resp st2 with
      | (.error _, st3) => st3
      | (.ok db, st3) => { st3 with user_info := db, fetching_user_info := false }

/- Concrete fixtures used by the closed instantiations below. -/

/-- Client with client_id "c" and one resource "r". -/
def clientR : OAuthClient where
  client_id := "c"
  resources := [{identifier := "r", scopes := ["s"]}]
  authorization_endpoint := "a"
  token_endpoint := "t"

/-- Client with client_id "c" and one user-information resource "g" plus a
user-info endpoint. -/
def clientU : OAuthClient where
  client_id := "c"
  resources := [{is_user_information_resource := true, identifier := "g",
                 scopes := ["User.Read"]}]
  authorization_endpoint := "a"
  token_endpoint := "t"
  user_info_endpoint := some "u"

/-- Storage holding, for clientR, access token "A" for resource "r", an
expiration time of 0 and refresh token "R". -/
def storeFull : Store :=
  ((Store.empty.set "c.r.OAuthAccessToken" "A").set
    "c.r.OAuthExpirationTime" "0").set "c.OAuthRefreshToken" "R"

/-- State over storeFull. -/
def stFull : ClientState := { store := storeFull }

/-- Storage holding, for clientR, the empty string as resource "r"'s access
token, an expiration time of 0 and refresh token "R". -/
def storeEmptyTok : Store :=
  ((Store.empty.set "c.r.OAuthAccessToken" "").set
    "c.r.OAuthExpirationTime" "0").set "c.OAuthRefreshToken" "R"

/-- State over storeEmptyTok. -/
def stEmptyTok : ClientState := { store := storeEmptyTok }

/-- State over the empty storage. -/
def stEmptyState : ClientState := { store := Store.empty }

/-- State holding only an expiration time of 5 for clientR's resource "r". -/
def stExp5 : ClientState :=
  { store := Store.empty.set "c.r.OAuthExpirationTime" "5" }

/-- State holding, for clientU, access token "A" for resource "g" with
expiration time 99. -/
def stUserTok : ClientState :=
  { store := (Store.empty.set "c.g.OAuthAccessToken" "A").set
      "c.g.OAuthExpirationTime" "99" }

/-- Token response with status 400 and provider error fields. -/
def respBad : TokenResponse := { status := 400, error := "e", error_description := "d" }

/-- Token response with status 200 and a well-formed body. -/
def respGood : TokenResponse :=
  { status := 200, access_token := some (.str "A2"),
    refresh_token := some (.str "R2"), expires_in := some (.num 3600) }

/-- Token response with status 200 whose body lacks every expected field. -/
def respEmptyBody : TokenResponse := { status := 200 }

/-- User-info response with status 200 and a truthy body. -/
def uiRespOk : UserInfoResponse := { status := 200, data := some "profile" }

/-- Digest capability returning a fixed six-byte digest, whose base64url
encoding exercises the '-' and the '_' replacement. -/
def shaFix : String → List Nat := fun _ => [0, 1, 2, 251, 252, 253]

/- Helper lemmas about the store. -/

theorem Store.get_set_self (s : Store) (k v : String) :
    (s.set k v).get k = some v := by
  simp [Store.set, Store.get]

theorem Store.get_set_ne (s : Store) {k k' : String} (v : String) (h : k' ≠ k) :
    (s.set k v).get k' = s.get k' := by
  simp [Store.set, Store.get, h]

theorem Store.get_remove_self (s : Store) (k : String) :
    (s.remove k).get k = none := by
  simp [Store.remove, Store.get]

theorem Store.get_remove_ne (s : Store) {k k' : String} (h : k' ≠ k) :
    (s.remove k).get k' = s.get k' := by
  simp [Store.remove, Store.get, h]

theorem Store.get_remove_remove_first (s : Store) (k k' : String) :
    ((s.remove k).remove k').get k = none := by
  by_cases h : k = k'
  · subst h; simp [Store.remove, Store.get]
  · rw [Store.get_remove_ne _ h, Store.get_remove_self]

/- Distinctness of the storage keys. -/

theorem ne_of_data_ne {s t : String} (h : s.data ≠ t.data) : s ≠ t :=
  fun he => h (he ▸ rfl)

theorem accessTokenKey_ne_expirationTimeKey (c : OAuthClient) (rid : String) :
    c.getAccessTokenKey rid ≠ c.getExpirationTimeKey rid := by
  intro h
  have hlen := congrArg String.length h
  simp only [OAuthClient.getAccessTokenKey, OAuthClient.getExpirationTimeKey,
    String.length_append] at hlen
  have e1 : (".OAuthAccessToken" : String).length = 17 := rfl
  have e2 : (".OAuthExpirationTime" : String).length = 20 := rfl
  rw [e1, e2] at hlen
  omega

theorem codeVerifierKey_ne_expirationTimeKey (c : OAuthClient) (rid : String) :
    c.CODE_VERIFIER_KEY ≠ c.getExpirationTimeKey rid := by
  intro h
  have hlen := congrArg String.length h
  simp only [OAuthClient.CODE_VERIFIER_KEY, OAuthClient.getExpirationTimeKey,
    String.length_append] at hlen
  have e1 : (".OAuthCodeVerifier" : String).length = 18 := rfl
  have e2 : (".OAuthExpirationTime" : String).length = 20 := rfl
  have e3 : ("." : String).length = 1 := rfl
  rw [e1, e2, e3] at hlen
  omega

theorem refreshTokenKey_ne_expirationTimeKey (c : OAuthClient) (rid : String) :
    c.REFRESH_TOKEN_KEY ≠ c.getExpirationTimeKey rid := by
  intro h
  have hlen := congrArg String.length h
  simp only [OAuthClient.REFRESH_TOKEN_KEY, OAuthClient.getExpirationTimeKey,
    String.length_append] at hlen
  have e1 : (".OAuthRefreshToken" : String).length = 18 := rfl
  have e2 : (".OAuthExpirationTime" : String).length = 20 := rfl
  have e3 : ("." : String).length = 1 := rfl
  rw [e1, e2, e3] at hlen
  omega

theorem codeVerifierKey_ne_accessTokenKey (c : OAuthClient) (rid : String) :
    c.CODE_VERIFIER_KEY ≠ c.getAccessTokenKey rid := by
  intro h
  have hd := congrArg String.data h
  simp only [OAuthClient.CODE_VERIFIER_KEY, OAuthClient.getAccessTokenKey,
    String.data_append, List.append_assoc] at hd
  have hc := List.append_cancel_left hd
  have hlen := congrArg List.length hc
  simp only [List.length_append] at hlen
  have e1 : (".OAuthCodeVerifier" : String).data.length = 18 := rfl
  have e2 : (".OAuthAccessToken" : String).data.length = 17 := rfl
  have e3 : ("." : String).data.length = 1 := rfl
  rw [e1, e2, e3] at hlen
  have hrid : rid.data = [] := List.eq_nil_of_length_eq_zero (by omega)
  rw [hrid] at hc
  exact absurd hc (by decide)

theorem refreshTokenKey_ne_accessTokenKey (c : OAuthClient) (rid : String) :
    c.REFRESH_TOKEN_KEY ≠ c.getAccessTokenKey rid := by
  intro h
  have hd := congrArg String.data h
  simp only [OAuthClient.REFRESH_TOKEN_KEY, OAuthClient.getAccessTokenKey,
    String.data_append, List.append_assoc] at hd
  have hc := List.append_cancel_left hd
  have hlen := congrArg List.length hc
  simp only [List.length_append] at hlen
  have e1 : (".OAuthRefreshToken" : String).data.length = 18 := rfl
  have e2 : (".OAuthAccessToken" : String).data.length = 17 := rfl
  have e3 : ("." : String).data.length = 1 := rfl
  rw [e1, e2, e3] at hlen
  have hrid : rid.data = [] := List.eq_nil_of_length_eq_zero (by omega)
  rw [hrid] at hc
  exact absurd hc (by decide)

theorem codeVerifierKey_ne_refreshTokenKey (c : OAuthClient) :
    c.CODE_VERIFIER_KEY ≠ c.REFRESH_TOKEN_KEY := by
  intro h
  have hd := congrArg String.data h
  simp only [OAuthClient.CODE_VERIFIER_KEY, OAuthClient.REFRESH_TOKEN_KEY,
    String.data_append] at hd
  have hc := List.append_cancel_left hd
  exact absurd hc (by decide)

/- Characterization and frame lemmas for the mutators. -/

theorem setAccessToken_store_frame (c : OAuthClient) (rid tok : String)
    (ei now : Int) (st : ClientState) {k : String}
    (h1 : k ≠ c.getAccessTokenKey rid) (h2 : k ≠ c.getExpirationTimeKey rid) :
    (setAccessToken c rid tok ei now st).store.get k = st.store.get k := by
  unfold setAccessToken notifyStateChanged
  dsimp only
  split <;> split <;>
    simp only [Store.get_set_ne _ _ h1, Store.get_set_ne _ _ h2]

theorem setAccessToken_events (c : OAuthClient) (rid tok : String)
    (ei now : Int) (st : ClientState) :
    (setAccessToken c rid tok ei now st).events = st.events ++
      (st.subscribers.filter (fun sb => sb.key == rid)).map
        (fun sb => (sb.id,
          (setAccessToken c rid tok ei now st).store.get (c.getAccessTokenKey rid))) :=
  rfl

theorem clearAccessToken_get_accessKey (c : OAuthClient) (rid : String)
    (st : ClientState) :
    (clearAccessToken c rid st).store.get (c.getAccessTokenKey rid) = none :=
  Store.get_remove_remove_first _ _ _

theorem clearAccessToken_get_expirationKey (c : OAuthClient) (rid : String)
    (st : ClientState) :
    (clearAccessToken c rid st).store.get (c.getExpirationTimeKey rid) = none :=
  Store.get_remove_self _ _

theorem clearAccessToken_store_frame (c : OAuthClient) (rid : String)
    (st : ClientState) {k : String}
    (h1 : k ≠ c.getAccessTokenKey rid) (h2 : k ≠ c.getExpirationTimeKey rid) :
    (clearAccessToken c rid st).store.get k = st.store.get k := by
  unfold clearAccessToken notifyStateChanged
  dsimp only
  rw [Store.get_remove_ne _ h2, Store.get_remove_ne _ h1]

theorem clearAccessToken_events (c : OAuthClient) (rid : String)
    (st : ClientState) :
    (clearAccessToken c rid st).events = st.events ++
      (st.subscribers.filter (fun sb => sb.key == rid)).map
        (fun sb => (sb.id, (none : Option String))) := by
  unfold clearAccessToken notifyStateChanged
  dsimp only
  rw [Store.get_remove_remove_first]

theorem setRefreshToken_store_frame (c : OAuthClient) (rt : String)
    (st : ClientState) {k : String} (h : k ≠ c.REFRESH_TOKEN_KEY) :
    (setRefreshToken c rt st).store.get k = st.store.get k := by
  unfold setRefreshToken
  split
  · exact Store.get_set_ne _ _ h
  · rfl

theorem refreshAccessToken_codeVerifier_frame (c : OAuthClient)
    (rid : String) (now : Int) (resp : TokenResponse) (st : ClientState) :
    ((refreshAccessToken c rid now resp st).2).store.get c.CODE_VERIFIER_KEY =
      st.store.get c.CODE_VERIFIER_KEY := by
  unfold refreshAccessToken
  cases c.resources.find? (fun r => r.identifier == rid) with
  | none => rfl
  | some r =>
    dsimp only
    split
    · rfl
    · split
      · exact clearAccessToken_store_frame c rid _
          (codeVerifierKey_ne_accessTokenKey c rid)
          (codeVerifierKey_ne_expirationTimeKey c rid)
      · cases hat : jstr resp.access_token with
        | none => rfl
        | some tok =>
          dsimp only
          cases hrt : jstr resp.refresh_token with
          | none => rfl
          | some rt =>
            dsimp only
            cases hei : jnum resp.expires_in with
            | none => rfl
            | some ei =>
              dsimp only
              rw [setRefreshToken_store_frame c rt _
                    (codeVerifierKey_ne_refreshTokenKey c)]
              exact setAccessToken_store_frame c rid tok ei now _
                (codeVerifierKey_ne_accessTokenKey c rid)
                (codeVerifierKey_ne_expirationTimeKey c rid)

theorem foldl_refresh_codeVerifier_frame (c : OAuthClient) (now : Int)
    (resps : String → TokenResponse) (rs : List OAuthResource)
    (st : ClientState) :
    ((rs.foldl
        (fun s r => (refreshAccessToken c r.identifier now (resps r.identifier) s).2)
        st)).store.get c.CODE_VERIFIER_KEY = st.store.get c.CODE_VERIFIER_KEY := by
  induction rs generalizing st with
  | nil => rfl
  | cons r rest ih =>
    rw [List.foldl_cons, ih, refreshAccessToken_codeVerifier_frame]

/-- C1: every call to loginWithRedirect persists, under the stored
code-verifier key, the code challenge computed from the freshly generated
verifier (the base64url encoding of its SHA-256 digest) — and not the
verifier itself, whenever the challenge differs from the verifier. -/
theorem loginWithRedirect_stores_challenge (c : OAuthClient)
    (sha256 : String → List Nat) (verifier : String) (st : ClientState)
    (h : generateCodeChallenge sha256 verifier ≠ verifier) :
    (loginWithRedirect c sha256 verifier st).store.get c.CODE_VERIFIER_KEY =
      some (generateCodeChallenge sha256 verifier) ∧
    (loginWithRedirect c sha256 verifier st).store.get c.CODE_VERIFIER_KEY ≠
      some verifier := by
  have h1 : (loginWithRedirect c sha256 verifier st).store.get c.CODE_VERIFIER_KEY =
      some (generateCodeChallenge sha256 verifier) :=
    Store.get_set_self _ _ _
  refine ⟨h1, ?_⟩
  rw [h1]
  intro he
  exact h (Option.some.inj he)

/-- Witness for C1 at a concrete digest capability, verifier and state. -/
theorem loginWithRedirect_stores_challenge_witness :
    (loginWithRedirect clientR shaFix "v" stEmptyState).store.get
        clientR.CODE_VERIFIER_KEY = some "AAEC-_z9" ∧
    (loginWithRedirect clientR shaFix "v" stEmptyState).store.get
        clientR.CODE_VERIFIER_KEY ≠ some "v" :=
  loginWithRedirect_stores_challenge clientR shaFix "v" stEmptyState (by decide)

/-- C9: tokenIsExpired reports expiry exactly when the current time strictly
exceeds the stored expiration time — a token expiring at exactly the current
time is still valid for that instant — and an absent expiration time counts
as already expired (whenever the current time is positive, as real clock
values are). -/
theorem tokenIsExpired_strict (c : OAuthClient) (rid : String) (now : Int)
    (st : ClientState) :
    (∀ s e, st.store.get (c.getExpirationTimeKey rid) = some s →
      jsNumber? s = some e → tokenIsExpired c rid now st = decide (now > e)) ∧
    (st.store.get (c.getExpirationTimeKey rid) = none → 0 < now →
      tokenIsExpired c rid now st = true) := by
  constructor
  · intro s e hs he
    unfold tokenIsExpired
    rw [hs]
    simp [jsNumberOfItem, he]
  · intro h hpos
    unfold tokenIsExpired
    rw [h]
    simpa [jsNumberOfItem] using hpos

/-- Witness for C9: a token with expiry 5 is not yet expired at time 5, and
an absent expiry is expired at time 1. -/
theorem tokenIsExpired_strict_witness :
    tokenIsExpired clientR "r" 5 stExp5 = false ∧
    tokenIsExpired clientR "r" 1 stEmptyState = true := by
  constructor
  · exact ((tokenIsExpired_strict clientR "r" 5 stExp5).1 "5" 5 (by decide)
      (by decide)).trans (by decide)
  · exact (tokenIsExpired_strict clientR "r" 1 stEmptyState).2 (by decide) (by decide)

/-- C10: getAccessToken with refresh_if_expired set to false leaves the whole
client state unchanged — no storage write, no network request, no subscriber
callback invocation. -/
theorem getAccessToken_no_refresh_frame (c : OAuthClient) (rid : String)
    (now : Int) (resp : TokenResponse) (st : ClientState) :
    (getAccessToken c rid false now resp st).2 = st := by
  unfold getAccessToken
  dsimp only
  split
  · rfl
  · simp

/-- C6 counterexample: setAccessToken invoked with an empty access-token
string (which a well-typed token-endpoint body can deliver) writes the
expiration time but not the token, leaving exactly one of the pair present. -/
theorem setAccessToken_splits_pair :
    (setAccessToken clientR "r" "" 1 1 stEmptyState).store.get
        (clientR.getAccessTokenKey "r") = none ∧
    (setAccessToken clientR "r" "" 1 1 stEmptyState).store.get
        (clientR.getExpirationTimeKey "r") = some "1001" := by
  exact ⟨by decide, by decide⟩

/-- C6 (amended): clearAccessToken always removes the access token and the
expiration time together, and setAccessToken stores both together provided
the token string is non-empty and the computed absolute expiry is nonzero;
only an empty token or a zero computed expiry can split the pair. -/
theorem accessToken_pair_atomic (c : OAuthClient) (rid tok : String)
    (ei now : Int) (st : ClientState) :
    (tok ≠ "" → now + ei * 1000 ≠ 0 →
      (setAccessToken c rid tok ei now st).store.get (c.getAccessTokenKey rid) =
        some tok ∧
      (setAccessToken c rid tok ei now st).store.get (c.getExpirationTimeKey rid) =
        some (toString (now + ei * 1000))) ∧
    ((clearAccessToken c rid st).store.get (c.getAccessTokenKey rid) = none ∧
     (clearAccessToken c rid st).store.get (c.getExpirationTimeKey rid) = none) := by
  refine ⟨fun ht he => ?_,
    clearAccessToken_get_accessKey c rid st,
    clearAccessToken_get_expirationKey c rid st⟩
  unfold setAccessToken notifyStateChanged
  dsimp only
  rw [if_pos (by simpa [bne_iff_ne] using he),
    if_pos (by simpa [bne_iff_ne] using ht)]
  constructor
  · rw [Store.get_set_ne _ _ (accessTokenKey_ne_expirationTimeKey c rid),
      Store.get_set_self]
  · rw [Store.get_set_self]

/-- Witness for C6 at a concrete non-empty token and nonzero expiry. -/
theorem accessToken_pair_atomic_witness :
    (setAccessToken clientR "r" "A" 1 1 stEmptyState).store.get
        (clientR.getAccessTokenKey "r") = some "A" ∧
    (setAccessToken clientR "r" "A" 1 1 stEmptyState).store.get
        (clientR.getExpirationTimeKey "r") = some "1001" :=
  (accessToken_pair_atomic clientR "r" "A" 1 1 stEmptyState).1
    (by decide) (by decide)

/-- C2 (failing case): logging out while the stored access token of resource
"r" is expired leaves that access token and its expiration time in storage —
the implicit refresh inside getAccessToken throws because the refresh token
was already cleared, so clearAccessToken is skipped — while the refresh token
and the code verifier are cleared. -/
theorem logout_leaves_expired_access_token :
    tokenIsExpired clientR "r" 5 stFull = true ∧
    (logout clientR 5 (fun _ => respGood) stFull).store.get
        (clientR.getAccessTokenKey "r") = some "A" ∧
    (logout clientR 5 (fun _ => respGood) stFull).store.get
        (clientR.getExpirationTimeKey "r") = some "0" ∧
    (logout clientR 5 (fun _ => respGood) stFull).store.get
        clientR.REFRESH_TOKEN_KEY = none ∧
    (logout clientR 5 (fun _ => respGood) stFull).store.get
        clientR.CODE_VERIFIER_KEY = none := by
  exact ⟨by decide, by decide, by decide, by decide, by decide⟩

/-- C3 counterexample: a 200 token-endpoint response whose body lacks a
string access_token makes refreshAccessToken throw, but — contrary to the
claim — the resource's stored access token and expiration time are not
cleared and no subscriber is notified. -/
theorem refreshAccessToken_malformed_no_clear :
    (refreshAccessToken clientR "r" 5 respEmptyBody stFull).1 =
      .error (.malformedField "access_token") ∧
    ((refreshAccessToken clientR "r" 5 respEmptyBody stFull).2).store.get
        (clientR.getAccessTokenKey "r") = some "A" ∧
    ((refreshAccessToken clientR "r" 5 respEmptyBody stFull).2).store.get
        (clientR.getExpirationTimeKey "r") = some "0" ∧
    ((refreshAccessToken clientR "r" 5 respEmptyBody stFull).2).events = [] := by
  exact ⟨rfl, by decide, by decide, rfl⟩

/-- C3 (amended): with the resource configured and a truthy refresh token
stored, a non-200 token-endpoint response makes refreshAccessToken clear that
resource's access token and expiration time, notify exactly that resource's
subscribers with the re-read (absent) value, leave every other storage key —
the refresh token and other resources' tokens included — unchanged, and fail
with the token-exchange error; a 200 response with a malformed body (a
missing or non-string access_token or refresh_token, or a missing or
non-numeric expires_in) makes it fail with a field error while storage and
subscriber callbacks are left untouched. -/
theorem refreshAccessToken_failure_spec (c : OAuthClient) (rid : String)
    (now : Int) (resp : TokenResponse) (st : ClientState)
    (hres : (c.resources.find? (fun r => r.identifier == rid)).isSome = true)
    (hrt : truthyS (st.store.get c.REFRESH_TOKEN_KEY) = true) :
    (resp.status ≠ 200 →
      (refreshAccessToken c rid now resp st).1 =
        .error (.tokenExchange resp.status resp.error resp.error_description) ∧
      ((refreshAccessToken c rid now resp st).2).store.get
          (c.getAccessTokenKey rid) = none ∧
      ((refreshAccessToken c rid now resp st).2).store.get
          (c.getExpirationTimeKey rid) = none ∧
      (∀ k, k ≠ c.getAccessTokenKey rid → k ≠ c.getExpirationTimeKey rid →
        ((refreshAccessToken c rid now resp st).2).store.get k =
          st.store.get k) ∧
      ((refreshAccessToken c rid now resp st).2).events = st.events ++
        (st.subscribers.filter (fun sb => sb.key == rid)).map
          (fun sb => (sb.id, (none : Option String)))) ∧
    (resp.status = 200 →
      (jstr resp.access_token = none ∨ jstr resp.refresh_token = none ∨
        jnum resp.expires_in = none) →
      (∃ f, (refreshAccessToken c rid now resp st).1 =
        .error (.malformedField f)) ∧
      ((refreshAccessToken c rid now resp st).2).store = st.store ∧
      ((refreshAccessToken c rid now resp st).2).events = st.events) := by
  obtain ⟨r, hr⟩ := Option.isSome_iff_exists.mp hres
  unfold refreshAccessToken
  rw [hr]
  dsimp only
  rw [if_neg (by simp [hrt])]
  constructor
  · intro hs
    rw [if_pos hs]
    refine ⟨rfl, clearAccessToken_get_accessKey c rid _,
      clearAccessToken_get_expirationKey c rid _, ?_, ?_⟩
    · intro k h1 h2
      exact clearAccessToken_store_frame c rid _ h1 h2
    · exact clearAccessToken_events c rid _
  · intro hs hmal
    rw [if_neg (by simp [hs])]
    cases hat : jstr resp.access_token with
    | none => exact ⟨⟨"access_token", rfl⟩, rfl, rfl⟩
    | some tok =>
      dsimp only
      cases hrt2 : jstr resp.refresh_token with
      | none => exact ⟨⟨"refresh_token", rfl⟩, rfl, rfl⟩
      | some rt =>
        dsimp only
        cases hei : jnum resp.expires_in with
        | none => exact ⟨⟨"expires_in", rfl⟩, rfl, rfl⟩
        | some ei =>
          rcases hmal with h | h | h
          · rw [hat] at h; cases h
          · rw [hrt2] at h; cases h
          · rw [hei] at h; cases h

/-- Witness for C3 at a concrete non-200 response: the token is cleared, the
refresh token is untouched and the call fails with the exchange error. -/
theorem refreshAccessToken_failure_spec_witness :
    (refreshAccessToken clientR "r" 5 respBad stFull).1 =
      .error (.tokenExchange 400 "e" "d") ∧
    ((refreshAccessToken clientR "r" 5 respBad stFull).2).store.get
        (clientR.getAccessTokenKey "r") = none ∧
    ((refreshAccessToken clientR "r" 5 respBad stFull).2).store.get
        clientR.REFRESH_TOKEN_KEY = some "R" := by
  have h := (refreshAccessToken_failure_spec clientR "r" 5 respBad stFull
    (by decide) (by decide)).1 (by decide)
  exact ⟨h.1, h.2.1,
    (h.2.2.2.1 clientR.REFRESH_TOKEN_KEY
      (refreshTokenKey_ne_accessTokenKey clientR "r")
      (refreshTokenKey_ne_expirationTimeKey clientR "r")).trans (by decide)⟩

/-- C4 counterexample: with the empty string stored under the access-token
key (so a token is stored) and an expired expiry, getAccessToken with
refresh_if_expired set returns null and issues no refresh request, even
though the supplied refresh response would have succeeded — contrary to the
claim that a stored expired token leads to an awaited refresh. -/
theorem getAccessToken_empty_token_no_refresh :
    stEmptyTok.store.get (clientR.getAccessTokenKey "r") = some "" ∧
    tokenIsExpired clientR "r" 5 stEmptyTok = true ∧
    (getAccessToken clientR "r" true 5 respGood stEmptyTok).1 = .ok none ∧
    ((getAccessToken clientR "r" true 5 respGood stEmptyTok).2).netlog = [] := by
  exact ⟨by decide, by decide, rfl, rfl⟩

/-- C4 (amended): getAccessToken returns null immediately, with no state
change and hence no refresh attempt, when the stored access-token value is
absent or the empty string; when a non-empty token is stored,
refresh_if_expired is set and the token is expired, it runs
refreshAccessToken — a refresh failure propagates to the caller unchanged
and a refresh success leads to returning the value re-read from storage
afterwards; in every other case it returns the stored token with no state
change. -/
theorem getAccessToken_spec (c : OAuthClient) (rid : String) (rie : Bool)
    (now : Int) (resp : TokenResponse) (st : ClientState) :
    (truthyS (st.store.get (c.getAccessTokenKey rid)) = false →
      getAccessToken c rid rie now resp st = (.ok none, st)) ∧
    (truthyS (st.store.get (c.getAccessTokenKey rid)) = true → rie = true →
      tokenIsExpired c rid now st = true →
      (∀ e st', refreshAccessToken c rid now resp st = (.error e, st') →
        getAccessToken c rid rie now resp st = (.error e, st')) ∧
      (∀ t st', refreshAccessToken c rid now resp st = (.ok t, st') →
        getAccessToken c rid rie now resp st =
          (.ok (st'.store.get (c.getAccessTokenKey rid)), st'))) ∧
    (truthyS (st.store.get (c.getAccessTokenKey rid)) = true →
      rie = false ∨ tokenIsExpired c rid now st = false →
      getAccessToken c rid rie now resp st =
        (.ok (st.store.get (c.getAccessTokenKey rid)), st)) := by
  refine ⟨fun hfalsy => ?_, fun htr hrie hexp => ?_, fun htr hcase => ?_⟩
  · unfold getAccessToken
    rw [if_pos (by simp [hfalsy])]
  · unfold getAccessToken
    rw [if_neg (by simp [htr]), if_pos (by simp [hrie, hexp])]
    constructor
    · intro e st' hrf
      rw [hrf]
    · intro t st' hrf
      rw [hrf]
  · unfold getAccessToken
    rw [if_neg (by simp [htr])]
    rcases hcase with h | h <;> rw [if_neg (by simp [h])]

/-- Witness for C4: a missing token yields null without state change, and an
expired stored token propagates the refresh failure. -/
theorem getAccessToken_spec_witness :
    getAccessToken clientR "r" true 5 respBad stEmptyState =
      (.ok none, stEmptyState) ∧
    getAccessToken clientR "r" true 5 respBad stFull =
      (.error (.tokenExchange 400 "e" "d"),
        (refreshAccessToken clientR "r" 5 respBad stFull).2) := by
  constructor
  · exact (getAccessToken_spec clientR "r" true 5 respBad stEmptyState).1
      (by decide)
  · exact ((getAccessToken_spec clientR "r" true 5 respBad stFull).2.1
      (by decide) rfl (by decide)).1 (.tokenExchange 400 "e" "d")
      (refreshAccessToken clientR "r" 5 respBad stFull).2 rfl

/- Helper lemmas about fetchTokensFromAuthorizationCode, for C5. -/

theorem fetchTokens_verifier_cleared (c : OAuthClient)
    (resource : OAuthResource) (url_code : Option String) (now : Int)
    (resp : TokenResponse) (st : ClientState) :
    ((fetchTokensFromAuthorizationCode c resource url_code now resp st).2).store.get
      c.CODE_VERIFIER_KEY = none := by
  unfold fetchTokensFromAuthorizationCode
  dsimp only
  split
  · exact Store.get_remove_self _ _
  · split
    · exact Store.get_remove_self _ _
    · split
      · exact Store.get_remove_self _ _
      · cases hat : jstr resp.access_token with
        | none => exact Store.get_remove_self _ _
        | some tok =>
          dsimp only
          cases hei : jnum resp.expires_in with
          | none => exact Store.get_remove_self _ _
          | some ei =>
            dsimp only
            cases hrt : jstr resp.refresh_token with
            | none => exact Store.get_remove_self _ _
            | some rt =>
              dsimp only
              rw [setRefreshToken_store_frame c rt _
                    (codeVerifierKey_ne_refreshTokenKey c),
                setAccessToken_store_frame c resource.identifier tok ei now _
                  (codeVerifierKey_ne_accessTokenKey c resource.identifier)
                  (codeVerifierKey_ne_expirationTimeKey c resource.identifier)]
              exact Store.get_remove_self _ _

theorem fetchTokens_error_missingCode (c : OAuthClient)
    (resource : OAuthResource) (url_code : Option String) (now : Int)
    (resp : TokenResponse) (st : ClientState) (h : truthyS url_code = false) :
    (fetchTokensFromAuthorizationCode c resource url_code now resp st).1 =
      .error .missingCode := by
  unfold fetchTokensFromAuthorizationCode
  dsimp only
  rw [if_pos (by simp [h])]

theorem fetchTokens_error_missingVerifier (c : OAuthClient)
    (resource : OAuthResource) (url_code : Option String) (now : Int)
    (resp : TokenResponse) (st : ClientState) (h1 : truthyS url_code = true)
    (h2 : truthyS (st.store.get c.CODE_VERIFIER_KEY) = false) :
    (fetchTokensFromAuthorizationCode c resource url_code now resp st).1 =
      .error .missingVerifier := by
  unfold fetchTokensFromAuthorizationCode
  dsimp only
  rw [if_neg (by simp [h1]), if_pos (by simp [h2])]

/-- C5: handleRedirectCallback clears the stored code verifier
unconditionally — it is absent from storage afterwards whatever the outcome —
and it fails with the missing-code error when the url carries no truthy code
parameter, and with the missing-verifier error when a code is present but no
truthy verifier is stored; in both failure cases the call simply throws, with
no retry. -/
theorem handleRedirectCallback_verifier_oneshot (c : OAuthClient)
    (url_code : Option String) (now : Int) (resps : String → TokenResponse)
    (st : ClientState) (hres : c.resources ≠ []) :
    ((handleRedirectCallback c url_code now resps st).2).store.get
        c.CODE_VERIFIER_KEY = none ∧
    (truthyS url_code = false →
      (handleRedirectCallback c url_code now resps st).1 =
        .error .missingCode) ∧
    (truthyS url_code = true →
      truthyS (st.store.get c.CODE_VERIFIER_KEY) = false →
      (handleRedirectCallback c url_code now resps st).1 =
        .error .missingVerifier) := by
  unfold handleRedirectCallback
  cases hcs : c.resources with
  | nil => exact absurd hcs hres
  | cons first others =>
    dsimp only
    cases hf : fetchTokensFromAuthorizationCode c first url_code now
        (resps first.identifier) st with
    | mk res st2 =>
      have hver := fetchTokens_verifier_cleared c first url_code now
        (resps first.identifier) st
      rw [hf] at hver
      cases res with
      | error e =>
        dsimp only
        refine ⟨hver, fun hcode => ?_, fun hcode hv => ?_⟩
        · have := fetchTokens_error_missingCode c first url_code now
            (resps first.identifier) st hcode
          rw [hf] at this
          exact congrArg Except.error (Except.error.inj this)
        · have := fetchTokens_error_missingVerifier c first url_code now
            (resps first.identifier) st hcode hv
          rw [hf] at this
          exact congrArg Except.error (Except.error.inj this)
      | ok u =>
        dsimp only
        refine ⟨?_, fun hcode => ?_, fun hcode hv => ?_⟩
        · rw [foldl_refresh_codeVerifier_frame]
          exact hver
        · have := fetchTokens_error_missingCode c first url_code now
            (resps first.identifier) st hcode
          rw [hf] at this
          cases this
        · have := fetchTokens_error_missingVerifier c first url_code now
            (resps first.identifier) st hcode hv
          rw [hf] at this
          cases this

/-- Witness for C5 at concrete inputs: the code verifier is absent
afterwards, a url without a code parameter produces the missing-code error,
and a url with a code but no stored verifier produces the missing-verifier
error. -/
theorem handleRedirectCallback_verifier_oneshot_witness :
    ((handleRedirectCallback clientR none 1 (fun _ => respGood) stFull).2).store.get
        clientR.CODE_VERIFIER_KEY = none ∧
    (handleRedirectCallback clientR none 1 (fun _ => respGood) stFull).1 =
      .error .missingCode ∧
    (handleRedirectCallback clientR (some "cd") 1 (fun _ => respGood) stFull).1 =
      .error .missingVerifier := by
  have h1 := handleRedirectCallback_verifier_oneshot clientR none 1
    (fun _ => respGood) stFull (by decide)
  have h2 := handleRedirectCallback_verifier_oneshot clientR (some "cd") 1
    (fun _ => respGood) stFull (by decide)
  exact ⟨h1.1, h1.2.1 (by decide), h2.2.2 (by decide) (by decide)⟩

/-- C7: subscribe invokes the callback synchronously exactly once at
registration time with the access token currently persisted for the resource
(possibly null); the returned unsubscribe is idempotent; and every mutation
of the resource's stored token invokes each subscriber registered under that
resource exactly once, with the value re-read from storage after the write —
for clearAccessToken that re-read value is always null, and for
setAccessToken it is whatever the store then holds, never a value handed over
by the mutator. -/
theorem subscribe_notify_spec (c : OAuthClient) (rid tok : String)
    (ei now : Int) (st : ClientState) (uid : Nat) :
    ((subscribe c rid st).2).events = st.events ++
      [((subscribe c rid st).1, st.store.get (c.getAccessTokenKey rid))] ∧
    unsubscribe uid (unsubscribe uid st) = unsubscribe uid st ∧
    (setAccessToken c rid tok ei now st).events = st.events ++
      (st.subscribers.filter (fun sb => sb.key == rid)).map
        (fun sb => (sb.id,
          (setAccessToken c rid tok ei now st).store.get
            (c.getAccessTokenKey rid))) ∧
    (clearAccessToken c rid st).events = st.events ++
      (st.subscribers.filter (fun sb => sb.key == rid)).map
        (fun sb => (sb.id, (none : Option String))) := by
  refine ⟨rfl, ?_, setAccessToken_events c rid tok ei now st,
    clearAccessToken_events c rid st⟩
  unfold unsubscribe
  simp [List.filter_filter]

/- Helper lemma about fetchUserInfo, for C8. -/

theorem fetchUserInfo_success (c : OAuthClient) (now : Int)
    (tok_resps : String → TokenResponse) (ui_resp : UserInfoResponse)
    (st : ClientState) (r : OAuthResource)
    (hfind : c.resources.find? (fun x => x.is_user_information_resource) =
      some r)
    (hrid : r.identifier ≠ "")
    (hep : c.user_info_endpoint.isSome = true)
    (htok : truthyS (st.store.get (c.getAccessTokenKey r.identifier)) = true)
    (hexp : tokenIsExpired c r.identifier now st = false)
    (hstatus : ui_resp.status = 200) :
    fetchUserInfo c now tok_resps ui_resp st =
      (.ok ui_resp.data, logNet st .userinfo) := by
  obtain ⟨ep, hepv⟩ := Option.isSome_iff_exists.mp hep
  unfold fetchUserInfo
  rw [hfind]
  dsimp only [Option.map_some']
  rw [if_neg (by simp [truthyS, bne_iff_ne, hrid]), hepv]
  dsimp only
  have hget : getAccessToken c r.identifier true now (tok_resps r.identifier) st =
      (.ok (st.store.get (c.getAccessTokenKey r.identifier)), st) := by
    unfold getAccessToken
    rw [if_neg (by simp [htok]), if_neg (by simp [hexp])]
  rw [hget]
  dsimp only
  rw [if_neg (by simp [htok]), if_neg (by simp [hstatus])]

/-- C8 counterexample: with no cached value and no stored access token, two
concurrent getUserInfo calls issue no user-info request at all (both return
null), not exactly one request as claimed. -/
theorem twoConcurrentGetUserInfo_zero_requests :
    stEmptyState.user_info = none ∧
    (twoConcurrentGetUserInfo clientU 1 (fun _ => respGood) uiRespOk
      stEmptyState).netlog = [] := by
  exact ⟨rfl, rfl⟩

/-- C8 (amended): two getUserInfo calls that overlap while no fetch is in
flight and no value is cached issue exactly one request to the user-info
endpoint when the user-information resource holds a stored, unexpired,
non-empty access token and the endpoint answers 200 with a truthy body — the
second caller awaits the in-flight fetch and reuses the cached result; with
no stored access token, no user-info request is issued at all. -/
theorem twoConcurrentGetUserInfo_single_flight (c : OAuthClient) (now : Int)
    (tok_resps : String → TokenResponse) (ui_resp : UserInfoResponse)
    (st : ClientState) (r : OAuthResource)
    (_hflight : st.fetching_user_info = false)
    (hcache : st.user_info = none)
    (hfind : c.resources.find? (fun x => x.is_user_information_resource) =
      some r)
    (hrid : r.identifier ≠ "")
    (hep : c.user_info_endpoint.isSome = true)
    (htok : truthyS (st.store.get (c.getAccessTokenKey r.identifier)) = true)
    (hexp : tokenIsExpired c r.identifier now st = false)
    (hstatus : ui_resp.status = 200)
    (hdata : truthyS ui_resp.data = true) :
    (twoConcurrentGetUserInfo c now tok_resps ui_resp st).netlog =
      st.netlog ++ [NetCall.userinfo] := by
  unfold twoConcurrentGetUserInfo
  rw [if_neg (by simp [hcache, truthyS]),
    fetchUserInfo_success c now tok_resps ui_resp st r hfind hrid hep htok
      hexp hstatus]
  dsimp only
  rw [if_pos (by simpa [truthyS] using hdata)]
  rfl

/-- Witness for C8 at a concrete authenticated client: exactly one user-info
request is issued. -/
theorem twoConcurrentGetUserInfo_single_flight_witness :
    (twoConcurrentGetUserInfo clientU 1 (fun _ => respGood) uiRespOk
      stUserTok).netlog = [NetCall.userinfo] :=
  twoConcurrentGetUserInfo_single_flight clientU 1 (fun _ => respGood)
    uiRespOk stUserTok ⟨true, "g", ["User.Read"]⟩ rfl rfl (by decide)
    (by decide) rfl (by decide) (by decide) rfl (by decide)

end OAuthSpa
